import Mathlib

/-!
Verification of the RBAC and permission-caching subsystem of the
University-Finance-Management backend.

The definitions below are shallow embeddings of the Python source:

* `app/core/rbac.py` — roles, permissions, hierarchy, effective permissions,
  resource policies, the permission cache and the guard chain;
* `app/core/cache.py` — the Redis-backed cache wrappers;
* `app/services/user.py` — user service operations (update, delete, diff-based
  audit emission);
* `app/routers/auth.py`, `app/routers/auth_2fa.py`, `app/routers/account.py` —
  login, logout, 2FA toggles, self-service account deletion;
* `app/db/audit.py` — the audit writer and the model-level event listener.

Python UUIDs are modelled as `Nat`, Python `None` for optional scalar fields as
`Option`, Python dicts as association lists with first-match lookup, and the
volatile Redis store as an explicit state value threaded through the cache
operations.  Exceptions are modelled with `Except`; a `try/except` block in the
source appears as a `match` on the `Except` value.
-/

set_option maxRecDepth 100000
set_option linter.unusedVariables false

namespace UFM

/-- Roles, from the `Role` enum in `app/core/rbac.py`. -/
inductive Role where
  | admin
  | finance_manager
  | department_head
  | viewer
deriving DecidableEq, Repr, Fintype

/-- Permissions, from the `Permission` enum in `app/core/rbac.py`. -/
inductive Permission where
  | create_user
  | read_user
  | update_user
  | delete_user
  | create_department
  | read_department
  | update_department
  | delete_department
  | create_budget
  | read_budget
  | update_budget
  | delete_budget
  | create_transaction
  | read_transaction
  | update_transaction
  | delete_transaction
  | create_report
  | read_report
  | delete_report
  | read_audit
  | manage_audit
deriving DecidableEq, Repr, Fintype

/-- String value of each role (the `value` attribute of the Python enum). -/
def Role.value : Role → String
  | .admin => "admin"
  | .finance_manager => "finance_manager"
  | .department_head => "department_head"
  | .viewer => "viewer"

/-- String value of each permission (the `value` attribute of the Python enum). -/
def Permission.value : Permission → String
  | .create_user => "create_user"
  | .read_user => "read_user"
  | .update_user => "update_user"
  | .delete_user => "delete_user"
  | .create_department => "create_department"
  | .read_department => "read_department"
  | .update_department => "update_department"
  | .delete_department => "delete_department"
  | .create_budget => "create_budget"
  | .read_budget => "read_budget"
  | .update_budget => "update_budget"
  | .delete_budget => "delete_budget"
  | .create_transaction => "create_transaction"
  | .read_transaction => "read_transaction"
  | .update_transaction => "update_transaction"
  | .delete_transaction => "delete_transaction"
  | .create_report => "create_report"
  | .read_report => "read_report"
  | .delete_report => "delete_report"
  | .read_audit => "read_audit"
  | .manage_audit => "manage_audit"

/-- The members of the `Permission` enum, in declaration order. -/
def PERMISSION_MEMBERS : List Permission :=
  [Permission.create_user, Permission.read_user, Permission.update_user,
   Permission.delete_user, Permission.create_department,
   Permission.read_department, Permission.update_department,
   Permission.delete_department, Permission.create_budget,
   Permission.read_budget, Permission.update_budget, Permission.delete_budget,
   Permission.create_transaction, Permission.read_transaction,
   Permission.update_transaction, Permission.delete_transaction,
   Permission.create_report, Permission.read_report, Permission.delete_report,
   Permission.read_audit, Permission.manage_audit]

/-- Constructing a `Permission` from its string value: `Permission(p)` in
Python, which raises `ValueError` (here `none`) for an unknown value. -/
def Permission.ofString (s : String) : Option Permission :=
  List.find? (fun p => Permission.value p = s) PERMISSION_MEMBERS

/-- Serialization `[p.value for p in permissions]` of a permission set.  The
iteration order of a Python set is unspecified; the embedding fixes the
declaration order of the enum. -/
def serializePerms (perms : Finset Permission) : List String :=
  (PERMISSION_MEMBERS.filter (fun p => decide (p ∈ perms))).map Permission.value

/-- Constructing a `Role` from its string value: `Role(s)` in Python.
An unknown value raises `ValueError`, modelled as `Except.error`. -/
def Role.ofString (s : String) : Except String Role :=
  if s = "admin" then .ok .admin
  else if s = "finance_manager" then .ok .finance_manager
  else if s = "department_head" then .ok .department_head
  else if s = "viewer" then .ok .viewer
  else .error (s ++ " is not a valid Role")

/-- `ROLE_HIERARCHY` from `app/core/rbac.py`: each role maps to the set of
roles it subsumes (written there as Python set literals, embedded here as
lists in declaration order). -/
def ROLE_HIERARCHY : Role → List Role
  | .admin => [.finance_manager, .department_head, .viewer]
  | .finance_manager => [.department_head, .viewer]
  | .department_head => [.viewer]
  | .viewer => []

/-- `ROLE_PERMISSIONS` from `app/core/rbac.py`: the direct (base) permission
set of each role. -/
def ROLE_PERMISSIONS : Role → Finset Permission
  | .admin =>
    {Permission.create_user, Permission.read_user, Permission.update_user,
     Permission.delete_user, Permission.create_department,
     Permission.read_department, Permission.update_department,
     Permission.delete_department, Permission.create_budget,
     Permission.read_budget, Permission.update_budget,
     Permission.delete_budget, Permission.create_transaction,
     Permission.read_transaction, Permission.update_transaction,
     Permission.delete_transaction, Permission.create_report,
     Permission.read_report, Permission.delete_report, Permission.read_audit,
     Permission.manage_audit}
  | .finance_manager =>
    {Permission.read_user, Permission.create_department,
     Permission.read_department, Permission.update_department,
     Permission.delete_department, Permission.create_budget,
     Permission.read_budget, Permission.update_budget,
     Permission.delete_budget, Permission.create_transaction,
     Permission.read_transaction, Permission.update_transaction,
     Permission.delete_transaction, Permission.create_report,
     Permission.read_report}
  | .department_head =>
    {Permission.read_user, Permission.read_department,
     Permission.create_budget, Permission.read_budget,
     Permission.update_budget, Permission.create_transaction,
     Permission.read_transaction, Permission.update_transaction,
     Permission.read_report}
  | .viewer =>
    {Permission.read_user, Permission.read_department, Permission.read_budget,
     Permission.read_transaction, Permission.read_report}

/-- `get_effective_permissions` from `app/core/rbac.py`: starts from the
role's own permissions and unions in the permissions of every inherited
role (the Python loop `for inherited_role in ROLE_HIERARCHY.get(role, set())`). -/
def get_effective_permissions (role : Role) : Finset Permission :=
  (ROLE_HIERARCHY role).foldl
    (fun permissions inherited_role => permissions ∪ ROLE_PERMISSIONS inherited_role)
    (ROLE_PERMISSIONS role)

/-- `has_permission` from `app/core/rbac.py`. -/
def has_permission (user_role : Role) (permission : Permission) : Bool :=
  decide (permission ∈ get_effective_permissions user_role)

namespace ResourcePolicy

/-- `ResourcePolicy.can_access_department` from `app/core/rbac.py`.
Department scopes are `Nat` (UUIDs in the source); the user's department may
be `None`, and Python `None == uuid` is `False`, which is exactly
`none = some target` being false. -/
def can_access_department (user_role : Role) (user_department_id : Option Nat)
    (target_department_id : Nat) : Bool :=
  if user_role = Role.admin then true
  else if user_role = Role.finance_manager then true
  else if user_role = Role.department_head then
    decide (user_department_id = some target_department_id)
  else if user_role = Role.viewer then
    decide (user_department_id = some target_department_id)
  else false

/-- `ResourcePolicy.can_modify_user` from `app/core/rbac.py`: admins may
modify anyone; every other user exactly their own account. -/
def can_modify_user (user_role : Role) (current_user_id : Nat)
    (target_user_id : Nat) : Bool :=
  if user_role = Role.admin then true
  else decide (current_user_id = target_user_id)

/-- `ResourcePolicy.can_manage_budget` from `app/core/rbac.py`. -/
def can_manage_budget (user_role : Role) (user_department_id : Option Nat)
    (budget_department_id : Nat) : Bool :=
  if user_role = Role.admin then true
  else if user_role = Role.finance_manager then true
  else if user_role = Role.department_head then
    decide (user_department_id = some budget_department_id)
  else false

/-- `ResourcePolicy.can_manage_transaction` from `app/core/rbac.py`. -/
def can_manage_transaction (user_role : Role) (user_department_id : Option Nat)
    (transaction_budget_department_id : Nat) : Bool :=
  if user_role = Role.admin then true
  else if user_role = Role.finance_manager then true
  else if user_role = Role.department_head then
    decide (user_department_id = some transaction_budget_department_id)
  else false

end ResourcePolicy

/-- Claim C3: the `ResourcePolicy` predicates reproduce the policy table
exactly: ADMIN and FINANCE_MANAGER always pass all three scope predicates;
DEPARTMENT_HEAD passes each one iff the actor scope equals the resource
scope; VIEWER gets department access iff scopes match and never gets budget
or transaction manage access; and a null-scoped DEPARTMENT_HEAD or VIEWER is
denied for every resource scope. -/
theorem C3_resource_policy_table (udep : Option Nat) (tdep : Nat) :
    (ResourcePolicy.can_access_department .admin udep tdep = true
      ∧ ResourcePolicy.can_manage_budget .admin udep tdep = true
      ∧ ResourcePolicy.can_manage_transaction .admin udep tdep = true)
    ∧ (ResourcePolicy.can_access_department .finance_manager udep tdep = true
      ∧ ResourcePolicy.can_manage_budget .finance_manager udep tdep = true
      ∧ ResourcePolicy.can_manage_transaction .finance_manager udep tdep = true)
    ∧ (ResourcePolicy.can_access_department .department_head udep tdep
          = decide (udep = some tdep)
      ∧ ResourcePolicy.can_manage_budget .department_head udep tdep
          = decide (udep = some tdep)
      ∧ ResourcePolicy.can_manage_transaction .department_head udep tdep
          = decide (udep = some tdep))
    ∧ (ResourcePolicy.can_access_department .viewer udep tdep
          = decide (udep = some tdep)
      ∧ ResourcePolicy.can_manage_budget .viewer udep tdep = false
      ∧ ResourcePolicy.can_manage_transaction .viewer udep tdep = false)
    ∧ (ResourcePolicy.can_access_department .department_head none tdep = false
      ∧ ResourcePolicy.can_manage_budget .department_head none tdep = false
      ∧ ResourcePolicy.can_manage_transaction .department_head none tdep = false
      ∧ ResourcePolicy.can_access_department .viewer none tdep = false) := by
  refine ⟨⟨rfl, rfl, rfl⟩, ⟨?_, ?_, ?_⟩, ⟨?_, ?_, ?_⟩, ⟨?_, ?_, ?_⟩, ?_, ?_, ?_, ?_⟩ <;>
    simp [ResourcePolicy.can_access_department, ResourcePolicy.can_manage_budget,
      ResourcePolicy.can_manage_transaction]

/-- Claim C4: for every role, the effective permission set equals the role's
direct permissions unioned with the direct permissions of every role in its
hierarchy entry; hence it is a superset of the direct set and of every
subsumed role's set, and `has_permission` holds exactly on that union.
The function is a pure Lean function (deterministic, no I/O). -/
theorem C4_effective_permissions_union (r : Role) :
    get_effective_permissions r
        = ROLE_PERMISSIONS r ∪ ((ROLE_HIERARCHY r).map ROLE_PERMISSIONS).foldr (· ∪ ·) ∅
      ∧ ROLE_PERMISSIONS r ⊆ get_effective_permissions r
      ∧ (∀ r2 ∈ ROLE_HIERARCHY r, ROLE_PERMISSIONS r2 ⊆ get_effective_permissions r)
      ∧ (∀ p : Permission, has_permission r p = true
          ↔ (p ∈ ROLE_PERMISSIONS r ∨ ∃ r2 ∈ ROLE_HIERARCHY r, p ∈ ROLE_PERMISSIONS r2)) := by
  cases r <;> exact ⟨by decide, by decide, by decide, by decide⟩

/-- Witness for C4: instantiated at ADMIN, whose hierarchy contains VIEWER,
so VIEWER's direct permissions are contained in ADMIN's effective set. -/
theorem C4_witness :
    ROLE_PERMISSIONS Role.viewer ⊆ get_effective_permissions Role.admin :=
  (C4_effective_permissions_union Role.admin).2.2.1 Role.viewer (by decide)

/-- Claim C10: for every role other than ADMIN, `can_modify_user` returns
true exactly when the current user is the target user; any actor may modify
their own record; ADMIN may modify anyone. -/
theorem C10_can_modify_user_self_or_admin (cur tgt : Nat) :
    ResourcePolicy.can_modify_user .finance_manager cur tgt = decide (cur = tgt)
    ∧ ResourcePolicy.can_modify_user .department_head cur tgt = decide (cur = tgt)
    ∧ ResourcePolicy.can_modify_user .viewer cur tgt = decide (cur = tgt)
    ∧ ResourcePolicy.can_modify_user .admin cur tgt = true
    ∧ (∀ r : Role, ResourcePolicy.can_modify_user r cur cur = true) := by
  refine ⟨?_, ?_, ?_, rfl, fun r => ?_⟩ <;>
    simp [ResourcePolicy.can_modify_user]

/-!
Dynamic-typing layer for C9.  Python is dynamically typed: the dictionaries
`ROLE_PERMISSIONS` / `ROLE_HIERARCHY` can be indexed with any value, and
`dict.get(key, default)` silently returns the default when the key is not a
member.  `RoleLike` is a Python value used where a role is expected: either an
actual `Role` enum member, or any other value (carried as a string), which can
never equal an enum member and therefore always takes the dict default.
-/

/-- Python value in role position: a `Role` member or an arbitrary non-member
value. -/
def RoleLike : Type := Role ⊕ String

/-- Lookup `ROLE_PERMISSIONS.get(role, set())` for an arbitrary Python value:
a non-member key hits the default empty set. -/
def rolePermissionsGet (key : RoleLike) : Finset Permission :=
  match key with
  | .inl r => ROLE_PERMISSIONS r
  | .inr _ => ∅

/-- Lookup `ROLE_HIERARCHY.get(role, set())` for an arbitrary Python value. -/
def roleHierarchyGet (key : RoleLike) : List Role :=
  match key with
  | .inl r => ROLE_HIERARCHY r
  | .inr _ => []

/-- The body of `get_effective_permissions` as executed by the dynamically
typed interpreter: `set(ROLE_PERMISSIONS.get(role, set()))` followed by the
update loop.  The `Except` return type records that the body could in
principle raise; its `dict.get` calls never do, so the result is always
`Except.ok`. -/
def get_effective_permissions_py (role : RoleLike) : Except String (Finset Permission) :=
  .ok ((roleHierarchyGet role).foldl
    (fun permissions inherited_role => permissions ∪ ROLE_PERMISSIONS inherited_role)
    (rolePermissionsGet role))

/-- Failure outcomes of the `require_permission` dependency in
`app/core/rbac.py`: an uncaught `ValueError` from `Role(current_user.role)`,
or the 403 `HTTPException`. -/
inductive GuardFailure where
  | valueError (msg : String)
  | forbidden (detail : String)
deriving DecidableEq, Repr

/-- The `permission_dependency` closure produced by `require_permission` in
`app/core/rbac.py`: constructs `Role(current_user.role)` (propagating the
`ValueError` for an unrecognized value), then checks `has_permission` and
raises 403 "Insufficient permissions" on failure. -/
def permission_dependency (permission : Permission) (current_user_role : String) :
    Except GuardFailure Unit :=
  match Role.ofString current_user_role with
  | .error e => .error (.valueError e)
  | .ok user_role =>
    if has_permission user_role permission then .ok ()
    else .error (.forbidden "Insufficient permissions")

/-!
Cache model for C2 and C6, from `app/core/cache.py` and the
`PermissionCache` class in `app/core/rbac.py`.

A Redis value is modelled as either a JSON list of strings (`jlist`, the only
shape this subsystem writes) or undecodable bytes (`jbad`, on which
`json.loads` raises).  The client is `Option Redis`: `none` is the
uninitialized-client case (`redis_client = None`).  The `fail` flags model
every backend call raising (connection refused / timeout); the Python
wrappers catch those exceptions, which is where the `none` / `false` returns
below come from.  The `use_json=False` pickle path is never taken by this
subsystem and is not modelled.
-/

/-- A value held in the volatile store. -/
inductive JsonVal where
  | jlist (ss : List String)
  | jbad
deriving DecidableEq, Repr

/-- First-match association-list lookup (Python dict access). -/
def dget {α : Type} (d : List (String × α)) (k : String) : Option α :=
  match d with
  | [] => none
  | (k2, v) :: rest => if k2 = k then some v else dget rest k

/-- Dict assignment `d[k] = v`: replace in place if present, else append. -/
def dset {α : Type} (d : List (String × α)) (k : String) (v : α) :
    List (String × α) :=
  match d with
  | [] => [(k, v)]
  | (k2, w) :: rest => if k2 = k then (k2, v) :: rest else (k2, w) :: dset rest k v

/-- Removal of a key from the store (Redis `DELETE`). -/
def eraseKey (store : List (String × JsonVal × Option Nat)) (k : String) :
    List (String × JsonVal × Option Nat) :=
  store.filter (fun e => decide (e.1 ≠ k))

/-- The Redis client state: the keyed store (value and the TTL in seconds it
was written with, `none` for a plain `SET`), plus per-operation failure flags
modelling a down backend. -/
structure Redis where
  store : List (String × JsonVal × Option Nat)
  failGet : Bool
  failSet : Bool
  failDel : Bool
deriving DecidableEq, Repr

/-- `get_cache` from `app/core/cache.py` (the key-based definition, which is
the one in scope): `None` client yields `None`; a raising backend call is
caught and yields `None`; undecodable bytes make `json.loads` raise, which is
caught and yields `None`. -/
def get_cache (client : Option Redis) (key : String) : Option (List String) :=
  match client with
  | none => none
  | some r =>
    if r.failGet then none
    else
      match dget r.store key with
      | none => none
      | some (.jlist ss, _) => some ss
      | some (.jbad, _) => none

/-- `set_cache` from `app/core/cache.py`: returns `False` without raising when
the client is `None` or the backend call raises; otherwise `SETEX key ttl v`
(when an expiry is given) or `SET key v`, returning `True`.  The returned
state is the store after the call. -/
def set_cache (client : Option Redis) (key : String) (value : List String)
    (expire : Option Nat) : Bool × Option Redis :=
  match client with
  | none => (false, none)
  | some r =>
    if r.failSet then (false, some r)
    else
      match expire with
      | some ttl => (true, some { r with store := dset r.store key (.jlist value, some ttl) })
      | none => (true, some { r with store := dset r.store key (.jlist value, none) })

/-- `delete_cache` from `app/core/cache.py`: returns `False` without raising
when the client is `None` or the backend call raises; otherwise deletes the
key and returns the Redis reply (the deleted-count, truthy iff the key
existed). -/
def delete_cache (client : Option Redis) (key : String) : Bool × Option Redis :=
  match client with
  | none => (false, none)
  | some r =>
    if r.failDel then (false, some r)
    else ((dget r.store key).isSome, some { r with store := eraseKey r.store key })

/-- Cache key `user_permissions:{user_id}` used by `PermissionCache`. -/
def permKey (user_id : Nat) : String := "user_permissions:" ++ toString user_id

/-- Deserialization `set(Permission(p) for p in cached)` from
`PermissionCache.get_user_permissions`: the first unknown permission string
raises `ValueError` (here `none`). -/
def parsePerms (ss : List String) : Option (Finset Permission) :=
  (ss.mapM Permission.ofString).map List.toFinset

/-- Shared fall-through tail of `PermissionCache.get_user_permissions`: on a
miss (or after clearing a corrupt entry) recompute from the role and write
back with `expire=timedelta(seconds=3600)`, i.e. a TTL of 3600 seconds. -/
def permComputeStore (client : Option Redis) (cache_key : String) (role : Role) :
    Finset Permission × Option Redis :=
  let permissions := get_effective_permissions role
  (permissions,
    (set_cache client cache_key (serializePerms permissions) (some 3600)).2)

/-- `PermissionCache.get_user_permissions` from `app/core/rbac.py`: read the
cache; a truthy (non-empty) cached list is parsed and returned, with a
`ValueError`/`TypeError` during parsing clearing the corrupt entry and
falling through; a falsy read (miss, caught error, or empty list) falls
through to recompute-and-store. -/
def PermissionCache.get_user_permissions (client : Option Redis) (user_id : Nat)
    (user_role : Role) : Finset Permission × Option Redis :=
  let cache_key := permKey user_id
  match get_cache client cache_key with
  | some cached =>
    if cached.isEmpty then permComputeStore client cache_key user_role
    else
      match parsePerms cached with
      | some perms => (perms, client)
      | none => permComputeStore (delete_cache client cache_key).2 cache_key user_role
  | none => permComputeStore client cache_key user_role

/-- `PermissionCache.invalidate_user_permissions` from `app/core/rbac.py`. -/
def PermissionCache.invalidate_user_permissions (client : Option Redis)
    (user_id : Nat) : Option Redis :=
  (delete_cache client (permKey user_id)).2

/-!
Resource-scoped guard chain for C5, from `app/core/rbac.py`.  Budgets and
transactions are looked up in an explicit database snapshot; the guards
either pass, raise the 404 `HTTPException`, or raise the 403 one.
-/

/-- A budget row: id and owning department (`app/models/budget.py`). -/
structure Budget where
  id : Nat
  department_id : Nat
deriving DecidableEq, Repr

/-- A transaction row: id and owning budget (`app/models/transaction.py`). -/
structure Txn where
  id : Nat
  budget_id : Nat
deriving DecidableEq, Repr

/-- `BudgetService.get_by_id` (a select by primary key). -/
def BudgetService.get_by_id (budgets : List Budget) (budget_id : Nat) : Option Budget :=
  budgets.find? (fun b => b.id == budget_id)

/-- `TransactionService.get_by_id` (a select by primary key). -/
def TransactionService.get_by_id (txns : List Txn) (transaction_id : Nat) : Option Txn :=
  txns.find? (fun t => t.id == transaction_id)

/-- `DepartmentService.get_by_id` (a select by primary key, existence only). -/
def DepartmentService.get_by_id (departments : List Nat) (department_id : Nat) : Option Nat :=
  departments.find? (fun d => d == department_id)

/-- Outcome of a guard dependency: pass, 404 `HTTPException`, or 403
`HTTPException`, each with its `detail` string. -/
inductive Outcome where
  | ok
  | notFound (detail : String)
  | forbidden (detail : String)
deriving DecidableEq, Repr

/-- `check_department_access` from `app/core/rbac.py` (pure scope compare,
no existence lookup). -/
def check_department_access (department_id : Nat) (user_role : Role)
    (user_department_id : Option Nat) : Bool :=
  ResourcePolicy.can_access_department user_role user_department_id department_id

/-- `check_budget_access` from `app/core/rbac.py`: a missing budget yields
`False` (indistinguishable from a scope denial to the caller). -/
def check_budget_access (budgets : List Budget) (budget_id : Nat)
    (user_role : Role) (user_department_id : Option Nat) : Bool :=
  match BudgetService.get_by_id budgets budget_id with
  | none => false
  | some budget =>
    ResourcePolicy.can_manage_budget user_role user_department_id budget.department_id

/-- `check_transaction_access` from `app/core/rbac.py`: missing transaction
or missing budget yields `False`. -/
def check_transaction_access (txns : List Txn) (budgets : List Budget)
    (transaction_id : Nat) (user_role : Role) (user_department_id : Option Nat) : Bool :=
  match TransactionService.get_by_id txns transaction_id with
  | none => false
  | some t =>
    match BudgetService.get_by_id budgets t.budget_id with
    | none => false
    | some budget =>
      ResourcePolicy.can_manage_transaction user_role user_department_id budget.department_id

/-- `get_department_with_access` from `app/core/rbac.py`: existence check
(404) before the scope check (403). -/
def get_department_with_access (departments : List Nat) (department_id : Nat)
    (user_role : Role) (user_department_id : Option Nat) : Outcome :=
  match DepartmentService.get_by_id departments department_id with
  | none => .notFound "Department not found"
  | some _ =>
    if check_department_access department_id user_role user_department_id then .ok
    else .forbidden "Access denied to this department"

/-- `update_department_with_access` from `app/core/rbac.py`: scope check
only, no existence lookup at all. -/
def update_department_with_access (department_id : Nat) (user_role : Role)
    (user_department_id : Option Nat) : Outcome :=
  if check_department_access department_id user_role user_department_id then .ok
  else .forbidden "Access denied to this department"

/-- `delete_department_with_access` from `app/core/rbac.py`: same body as the
update guard. -/
def delete_department_with_access (department_id : Nat) (user_role : Role)
    (user_department_id : Option Nat) : Outcome :=
  if check_department_access department_id user_role user_department_id then .ok
  else .forbidden "Access denied to this department"

/-- `get_budget_with_access` from `app/core/rbac.py`: existence check (404)
before the scope check (403). -/
def get_budget_with_access (budgets : List Budget) (budget_id : Nat)
    (user_role : Role) (user_department_id : Option Nat) : Outcome :=
  match BudgetService.get_by_id budgets budget_id with
  | none => .notFound "Budget not found"
  | some _ =>
    if check_budget_access budgets budget_id user_role user_department_id then .ok
    else .forbidden "Access denied to this budget"

/-- `update_budget_with_access` from `app/core/rbac.py`: no existence check;
`check_budget_access` alone decides, so a missing budget is rejected with
the 403 detail. -/
def update_budget_with_access (budgets : List Budget) (budget_id : Nat)
    (user_role : Role) (user_department_id : Option Nat) : Outcome :=
  if check_budget_access budgets budget_id user_role user_department_id then .ok
  else .forbidden "Access denied to this budget"

/-- `delete_budget_with_access` from `app/core/rbac.py`: same body as the
update guard. -/
def delete_budget_with_access (budgets : List Budget) (budget_id : Nat)
    (user_role : Role) (user_department_id : Option Nat) : Outcome :=
  if check_budget_access budgets budget_id user_role user_department_id then .ok
  else .forbidden "Access denied to this budget"

/-- `get_transaction_with_access` from `app/core/rbac.py`: existence check
(404) before the scope check (403). -/
def get_transaction_with_access (txns : List Txn) (budgets : List Budget)
    (transaction_id : Nat) (user_role : Role) (user_department_id : Option Nat) : Outcome :=
  match TransactionService.get_by_id txns transaction_id with
  | none => .notFound "Transaction not found"
  | some _ =>
    if check_transaction_access txns budgets transaction_id user_role user_department_id then .ok
    else .forbidden "Access denied to this transaction"

/-- `update_transaction_with_access` from `app/core/rbac.py`: no existence
check before the scope predicate. -/
def update_transaction_with_access (txns : List Txn) (budgets : List Budget)
    (transaction_id : Nat) (user_role : Role) (user_department_id : Option Nat) : Outcome :=
  if check_transaction_access txns budgets transaction_id user_role user_department_id then .ok
  else .forbidden "Access denied to this transaction"

/-- `delete_transaction_with_access` from `app/core/rbac.py`: same body as
the update guard. -/
def delete_transaction_with_access (txns : List Txn) (budgets : List Budget)
    (transaction_id : Nat) (user_role : Role) (user_department_id : Option Nat) : Outcome :=
  if check_transaction_access txns budgets transaction_id user_role user_department_id then .ok
  else .forbidden "Access denied to this transaction"

/-!
Event-trace models for C1, C7 and C8.  Each service/router operation is
embedded as a function returning `Except` (an uncaught `HTTPException` or a
re-raised audit error) together with the ordered list of side effects it
performed.  User records and update payloads are Python dicts: association
lists from field name to `Option String` (`none` is Python `None`); the
absent-key/`None` conflation of `dict.get` is `pyget`.
-/

/-- Side effects performed by an operation, in program order.  Audit detail
payloads other than update field-diffs are not inspected by any claim and are
carried as the empty diff list. -/
inductive Event where
  | commit
  | refresh
  | invalidate (user_id : Nat)
  | auditLog (action : String) (changed : List (String × Option String × Option String))
  | email
  | setCacheEv
  | deleteCacheEv
  | sessionCreate
deriving DecidableEq, Repr

/-- Python `d.get(k)` on a dict with `Option String` values: an absent key
and a stored `None` both come back as `None`. -/
def pyget (d : List (String × Option String)) (k : String) : Option String :=
  (dget d k).join

/-- `log_action_async` from `app/db/audit.py`: on a write failure the session
is rolled back, the error logged, and the exception re-raised — for every
caller. -/
def log_action_async (write_ok : Bool) (action : String)
    (changed : List (String × Option String × Option String)) : Except String Event :=
  if write_ok then .ok (.auditLog action changed)
  else .error "Failed to create async audit log"

/-- The `old_data` dict built at the top of `UserService.update`
(`app/services/user.py`): the current value of every supplied field that the
user model actually has. -/
def old_data_of (user : List (String × Option String))
    (user_in : List (String × Option String)) : List (String × Option String) :=
  (user_in.map Prod.fst).filterMap (fun k => (dget user k).map (fun v => (k, v)))

/-- The `update_data` dict of `UserService.update` after the password
transformation: `password` is popped and `hashed_password` set to its hash
(`get_password_hash` is an external pure function, passed in as `hashf`). -/
def update_data_of (hashf : Option String → Option String)
    (user_in : List (String × Option String)) : List (String × Option String) :=
  match dget user_in "password" with
  | some pw =>
    dset (user_in.filter (fun kv => decide (kv.1 ≠ "password"))) "hashed_password" (hashf pw)
  | none => user_in

/-- The `changed_fields` comprehension of `UserService.update`: the supplied
fields whose old value (via `old_data.get`) differs from the new value,
with the old/new pair recorded. -/
def changed_fields (old_data update_data : List (String × Option String)) :
    List (String × Option String × Option String) :=
  update_data.filterMap (fun kv =>
    if pyget old_data kv.1 ≠ kv.2 then some (kv.1, pyget old_data kv.1, kv.2) else none)

/-- `UserService.update` from `app/services/user.py`: look up the user,
compute `old_data` and `update_data`, detect a role change, apply the fields
and commit, emit the UPDATE audit record only when the diff is non-empty
(its failure re-raises), and invalidate the permission cache plus send the
notification email only when the role changed.  Returns the updated record
and the effect trace. -/
def UserService.update (hashf : Option String → Option String) (audit_ok : Bool)
    (user : Option (List (String × Option String))) (user_id : Nat)
    (user_in : List (String × Option String)) :
    Except String (Option (List (String × Option String)) × List Event) :=
  match user with
  | none => .ok (none, [])
  | some u =>
    let old_data := old_data_of u user_in
    let update_data := update_data_of hashf user_in
    let role_changed : Bool :=
      match dget update_data "role" with
      | some v => decide (v ≠ pyget u "role")
      | none => false
    let new_user := update_data.foldl (fun acc kv => dset acc kv.1 kv.2) u
    let changed := changed_fields old_data update_data
    let tail : List Event :=
      if role_changed then [Event.invalidate user_id, Event.email] else []
    if changed.isEmpty then
      .ok (some new_user, [Event.commit, Event.refresh] ++ tail)
    else
      match log_action_async audit_ok "UPDATE" changed with
      | .error e => .error e
      | .ok ev => .ok (some new_user, [Event.commit, Event.refresh, ev] ++ tail)

/-- `UserService.delete` from `app/services/user.py`: look up the user,
delete and commit, emit the DELETE audit record (its failure re-raises),
attempt the deletion email.  No permission-cache invalidation occurs. -/
def UserService.delete (audit_ok : Bool)
    (user : Option (List (String × Option String))) (user_id : Nat) :
    Except String (Bool × List Event) :=
  match user with
  | none => .ok (false, [])
  | some _ =>
    match log_action_async audit_ok "DELETE" [] with
    | .error e => .error e
    | .ok ev => .ok (true, [Event.commit, ev, Event.email])

/-- `login_for_access_token` from `app/routers/auth.py` (with the LOGIN
audit inside `UserService.authenticate`): on bad credentials the
LOGIN_FAILED audit is attempted (failure re-raises) and 401 is raised; on
success two LOGIN audits are written (failure re-raises), the refresh token
is cached, `last_login` committed, the permission cache invalidated, and
session creation is attempted with its failure swallowed. -/
def login_for_access_token (user_found password_ok audit_ok session_ok : Bool)
    (user_id : Nat) : Except String (List Event) :=
  if user_found && password_ok then
    match log_action_async audit_ok "LOGIN" [] with
    | .error e => .error e
    | .ok ev1 =>
      match log_action_async audit_ok "LOGIN" [] with
      | .error e => .error e
      | .ok ev2 =>
        .ok ([ev1, ev2, Event.setCacheEv, Event.commit, Event.refresh,
              Event.invalidate user_id]
          ++ (if session_ok then [Event.sessionCreate] else []))
  else
    match log_action_async audit_ok "LOGIN_FAILED" [] with
    | .error e => .error e
    | .ok _ => .error "Incorrect username or password"

/-- `logout_user` from `app/routers/auth.py`: refresh-token cache delete
(never raises), then the LOGOUT audit (failure re-raises). -/
def logout_user (audit_ok : Bool) (user_id : Nat) : Except String (List Event) :=
  match log_action_async audit_ok "LOGOUT" [] with
  | .error e => .error e
  | .ok ev => .ok [Event.deleteCacheEv, ev]

/-- `enable_2fa` from `app/routers/auth_2fa.py`: rejected when already
enabled; otherwise commit the TOTP secret and invalidate the permission
cache. -/
def enable_2fa (is_2fa_enabled : Bool) (user_id : Nat) : Except String (List Event) :=
  if is_2fa_enabled then .error "Two-factor authentication is already enabled"
  else .ok [Event.commit, Event.refresh, Event.invalidate user_id]

/-- `verify_2fa` from `app/routers/auth_2fa.py`: with a TOTP secret present,
a valid TOTP token enables 2FA, commits and invalidates the permission
cache; the backup-code path commits the consumed code without touching
`is_2fa_enabled`; otherwise 400. -/
def verify_2fa (has_secret totp_ok backup_ok : Bool) (user_id : Nat) :
    Except String (List Event) :=
  if has_secret then
    if totp_ok then .ok [Event.commit, Event.refresh, Event.invalidate user_id]
    else if backup_ok then .ok [Event.commit, Event.refresh]
    else .error "Invalid verification code"
  else .error "Two-factor authentication is not enabled"

/-- `disable_2fa` from `app/routers/auth_2fa.py`: rejected when not enabled;
otherwise commit and invalidate the permission cache. -/
def disable_2fa (is_2fa_enabled : Bool) (user_id : Nat) : Except String (List Event) :=
  if is_2fa_enabled then .ok [Event.commit, Event.refresh, Event.invalidate user_id]
  else .error "Two-factor authentication is not enabled"

/-- `delete_account` from `app/routers/account.py` (self-service deletion):
password and confirmation-text checks, last-admin protection, then session
cleanup and user deletion committed, and the permission cache invalidated. -/
def delete_account (password_ok confirm_ok is_admin last_admin : Bool)
    (user_id : Nat) : Except String (List Event) :=
  if !password_ok then .error "Invalid password"
  else if !confirm_ok then .error "Confirmation text is incorrect"
  else if is_admin && last_admin then .error "Cannot delete the last admin account"
  else .ok [Event.commit, Event.invalidate user_id]

/-- The listener body built by `setup_audit_event_listeners.make_listener` in
`app/db/audit.py`: given the captured field-level changes, return without
logging when there are none, else write one internal audit record. -/
def make_listener (action : String)
    (changes : List (String × Option String × Option String)) : List Event :=
  if changes.isEmpty then []
  else [Event.auditLog (action ++ "_INTERNAL") changes]

/-- Claim C6: with the cache backend unavailable — client never initialized
(`none`) or every backend call raising — `get_cache` returns `none` (a miss),
`set_cache` and `delete_cache` return `false` rather than raising, and
`PermissionCache.get_user_permissions` still returns exactly
`get_effective_permissions role` with the backend state unchanged, so the
authorization decision matches the cache-less computation. -/
theorem C6_cache_unavailable_degrades
    (store : List (String × JsonVal × Option Nat)) (uid : Nat) (role : Role)
    (k : String) (v : List String) (e : Option Nat) :
    get_cache none k = none
    ∧ set_cache none k v e = (false, none)
    ∧ delete_cache none k = (false, none)
    ∧ PermissionCache.get_user_permissions none uid role
        = (get_effective_permissions role, none)
    ∧ get_cache (some ⟨store, true, true, true⟩) k = none
    ∧ set_cache (some ⟨store, true, true, true⟩) k v e
        = (false, some ⟨store, true, true, true⟩)
    ∧ delete_cache (some ⟨store, true, true, true⟩) k
        = (false, some ⟨store, true, true, true⟩)
    ∧ PermissionCache.get_user_permissions (some ⟨store, true, true, true⟩) uid role
        = (get_effective_permissions role, some ⟨store, true, true, true⟩) :=
  ⟨rfl, rfl, rfl, rfl, rfl, rfl, rfl, rfl⟩

/-- Claim C7, counterexample: a login with valid credentials in which the
audit write raises does NOT complete — the re-raised audit error propagates
out of the endpoint instead of the token response being returned. -/
theorem C7_counterexample_login_audit_failure :
    login_for_access_token true true false true 7
      = .error "Failed to create async audit log" := rfl

/-- Claim C7 as amended: `log_action_async` logs, rolls back and re-raises on
a failed audit write for every caller — including the login and logout
endpoints, which do not catch it — so a failing audit write fails the login
(for any credential outcome) and the logout; with the audit write succeeding
the login completes, and only the session-creation failure is swallowed. -/
theorem C7_amended_audit_reraise (user_found password_ok session_ok : Bool)
    (uid : Nat) (action : String)
    (changed : List (String × Option String × Option String)) :
    log_action_async false action changed = .error "Failed to create async audit log"
    ∧ login_for_access_token user_found password_ok false session_ok uid
        = .error "Failed to create async audit log"
    ∧ logout_user false uid = .error "Failed to create async audit log"
    ∧ (∃ evs, login_for_access_token true true true session_ok uid = .ok evs)
    ∧ login_for_access_token true true true false uid
        = .ok [.auditLog "LOGIN" [], .auditLog "LOGIN" [], .setCacheEv, .commit,
               .refresh, .invalidate uid] := by
  refine ⟨rfl, ?_, rfl, ⟨_, rfl⟩, rfl⟩
  cases user_found <;> cases password_ok <;> rfl

/-- Claim C9, counterexample: for a value outside the role enumeration the
effective-permission lookup does not raise — the `dict.get` defaults make it
silently return the empty permission set — even though enum construction
does reject the same value. -/
theorem C9_counterexample_lookup_returns_empty :
    get_effective_permissions_py (.inr "superuser") = .ok ∅
    ∧ Role.ofString "superuser" = .error "superuser is not a valid Role" :=
  ⟨rfl, rfl⟩

/-- Claim C9 as amended: an unrecognized role value is rejected at
construction (`Role(value)` raises) and the permission guard propagates that
error rather than denying silently; but `get_effective_permissions` itself,
applied to a value outside the enumeration, silently returns the empty set
via its dictionary defaults instead of raising.  On enum members the dynamic
body agrees with the typed function, and construction round-trips. -/
theorem C9_amended_fail_fast (s v : String) (p : Permission) (r : Role) :
    (s ≠ "admin" → s ≠ "finance_manager" → s ≠ "department_head" → s ≠ "viewer" →
      Role.ofString s = .error (s ++ " is not a valid Role")
      ∧ permission_dependency p s
          = .error (.valueError (s ++ " is not a valid Role")))
    ∧ get_effective_permissions_py (.inr v) = .ok ∅
    ∧ get_effective_permissions_py (.inl r) = .ok (get_effective_permissions r)
    ∧ (∀ r2 : Role, Role.ofString (Role.value r2) = .ok r2) := by
  refine ⟨?_, rfl, rfl, fun r2 => by cases r2 <;> rfl⟩
  intro h1 h2 h3 h4
  have hro : Role.ofString s = .error (s ++ " is not a valid Role") := by
    simp [Role.ofString, h1, h2, h3, h4]
  exact ⟨hro, by simp [permission_dependency, hro]⟩

/-- Witness for C9 as amended, at the concrete non-member value
"superuser" and permission READ_USER. -/
theorem C9_amended_witness :
    Role.ofString "superuser" = .error "superuser is not a valid Role"
    ∧ permission_dependency .read_user "superuser"
        = .error (.valueError "superuser is not a valid Role") :=
  (C9_amended_fail_fast "superuser" "x" .read_user .admin).1
    (by decide) (by decide) (by decide) (by decide)

/-- Claim C5, counterexample: with an empty budget table (budget 1 does not
exist), the budget update guard rejects even an ADMIN with the
403-equivalent "Access denied to this budget" — not the 404-equivalent —
while the retrieval guard for the same request correctly yields 404. -/
theorem C5_counterexample_update_guard_forbidden :
    BudgetService.get_by_id [] 1 = none
    ∧ update_budget_with_access [] 1 .admin none
        = .forbidden "Access denied to this budget"
    ∧ get_budget_with_access [] 1 .admin none = .notFound "Budget not found" :=
  ⟨rfl, rfl, rfl⟩

/-- Claim C5 as amended: for the retrieval guards (`get_*_with_access`) the
existence check runs before the scope check and a nonexistent resource
yields the 404-equivalent, never the scope guard's 403; the update/delete
guards perform no separate existence check — a nonexistent budget or
transaction yields the 403 "Access denied" outcome for every actor, and the
department update/delete guards evaluate the scope predicate alone (so a
mismatched DEPARTMENT_HEAD is rejected with 403 whether or not the
department exists). -/
theorem C5_amended_guard_ordering (budgets : List Budget) (txns : List Txn)
    (departments : List Nat) (bid tid did : Nat) (role : Role)
    (udep : Option Nat) :
    (BudgetService.get_by_id budgets bid = none →
      get_budget_with_access budgets bid role udep = .notFound "Budget not found"
      ∧ update_budget_with_access budgets bid role udep
          = .forbidden "Access denied to this budget"
      ∧ delete_budget_with_access budgets bid role udep
          = .forbidden "Access denied to this budget")
    ∧ (TransactionService.get_by_id txns tid = none →
      get_transaction_with_access txns budgets tid role udep
          = .notFound "Transaction not found"
      ∧ update_transaction_with_access txns budgets tid role udep
          = .forbidden "Access denied to this transaction"
      ∧ delete_transaction_with_access txns budgets tid role udep
          = .forbidden "Access denied to this transaction")
    ∧ (DepartmentService.get_by_id departments did = none →
      get_department_with_access departments did role udep
          = .notFound "Department not found")
    ∧ (udep ≠ some did →
      update_department_with_access did .department_head udep
          = .forbidden "Access denied to this department"
      ∧ delete_department_with_access did .department_head udep
          = .forbidden "Access denied to this department") := by
  refine ⟨fun h => ?_, fun h => ?_, fun h => ?_, fun h => ?_⟩
  · exact ⟨by simp [get_budget_with_access, h],
      by simp [update_budget_with_access, check_budget_access, h],
      by simp [delete_budget_with_access, check_budget_access, h]⟩
  · exact ⟨by simp [get_transaction_with_access, h],
      by simp [update_transaction_with_access, check_transaction_access, h],
      by simp [delete_transaction_with_access, check_transaction_access, h]⟩
  · simp [get_department_with_access, h]
  · constructor <;>
      simp [update_department_with_access, delete_department_with_access,
        check_department_access, ResourcePolicy.can_access_department, h]

/-- Witness for C5 as amended: empty database tables, budget/transaction/
department id 1, an ADMIN actor for the missing-resource conjuncts and a
DEPARTMENT_HEAD scoped to department 2 for the scope conjunct. -/
theorem C5_amended_witness :
    (get_budget_with_access [] 1 .admin (some 2) = .notFound "Budget not found"
      ∧ update_budget_with_access [] 1 .admin (some 2)
          = .forbidden "Access denied to this budget"
      ∧ delete_budget_with_access [] 1 .admin (some 2)
          = .forbidden "Access denied to this budget")
    ∧ (get_transaction_with_access [] [] 1 .admin (some 2)
          = .notFound "Transaction not found"
      ∧ update_transaction_with_access [] [] 1 .admin (some 2)
          = .forbidden "Access denied to this transaction"
      ∧ delete_transaction_with_access [] [] 1 .admin (some 2)
          = .forbidden "Access denied to this transaction")
    ∧ get_department_with_access [] 1 .admin (some 2)
        = .notFound "Department not found"
    ∧ (update_department_with_access 1 .department_head (some 2)
          = .forbidden "Access denied to this department"
      ∧ delete_department_with_access 1 .department_head (some 2)
          = .forbidden "Access denied to this department") := by
  have h := C5_amended_guard_ordering [] [] [] 1 1 1 .admin (some 2)
  exact ⟨h.1 rfl, h.2.1 rfl, h.2.2.1 rfl, h.2.2.2 (by decide)⟩

/-- Claim C2, counterexample: an empty stored list is a deserializable entry
(it decodes to the empty permission set), yet `get_user_permissions` does not
return it — the Python truthiness test `if cached:` treats it as a miss, so
the role's effective permissions are recomputed, written back and returned
instead of the entry's (empty) set. -/
theorem C2_counterexample_empty_entry :
    parsePerms [] = some ∅
    ∧ get_effective_permissions .viewer ≠ ∅
    ∧ PermissionCache.get_user_permissions
        (some ⟨[(permKey 5, (.jlist [], some 3600))], false, false, false⟩) 5 .viewer
      = (get_effective_permissions .viewer,
         some ⟨[(permKey 5,
            (.jlist (serializePerms (get_effective_permissions .viewer)), some 3600))],
           false, false, false⟩) :=
  ⟨rfl, by decide, by decide⟩

/-- Claim C2 as amended: `get_user_permissions` is cache-aside with one
qualification forced by the truthiness test — a NON-EMPTY deserializable
entry is parsed and returned with the store untouched; an entry holding an
unknown permission name is evicted and then, like a miss, an undecodable
entry, or an EMPTY entry, leads to recomputing `get_effective_permissions`,
writing it back with a TTL of exactly 3600 seconds, and returning the fresh
set; no case fails the call. -/
theorem C2_amended_cache_aside (store : List (String × JsonVal × Option Nat))
    (uid : Nat) (role : Role) (ss : List String) (ttl : Option Nat)
    (perms : Finset Permission) :
    (dget store (permKey uid) = some (.jlist ss, ttl) → ss ≠ [] →
      parsePerms ss = some perms →
      PermissionCache.get_user_permissions (some ⟨store, false, false, false⟩) uid role
        = (perms, some ⟨store, false, false, false⟩))
    ∧ (dget store (permKey uid) = some (.jlist ss, ttl) → ss ≠ [] →
      parsePerms ss = none →
      PermissionCache.get_user_permissions (some ⟨store, false, false, false⟩) uid role
        = (get_effective_permissions role,
           some ⟨dset (eraseKey store (permKey uid)) (permKey uid)
              (.jlist (serializePerms (get_effective_permissions role)), some 3600),
             false, false, false⟩))
    ∧ ((dget store (permKey uid) = none
        ∨ dget store (permKey uid) = some (.jlist [], ttl)
        ∨ dget store (permKey uid) = some (.jbad, ttl)) →
      PermissionCache.get_user_permissions (some ⟨store, false, false, false⟩) uid role
        = (get_effective_permissions role,
           some ⟨dset store (permKey uid)
              (.jlist (serializePerms (get_effective_permissions role)), some 3600),
             false, false, false⟩)) := by
  have hss : ∀ (l : List String), l ≠ [] → l.isEmpty = false := by
    intro l hl
    cases l with
    | nil => exact absurd rfl hl
    | cons a t => rfl
  refine ⟨fun hentry hne hparse => ?_, fun hentry hne hparse => ?_, fun hmiss => ?_⟩
  · simp [PermissionCache.get_user_permissions, get_cache, hentry, hss ss hne, hparse]
  · simp [PermissionCache.get_user_permissions, get_cache, hentry, hss ss hne, hparse,
      permComputeStore, delete_cache, set_cache]
  · rcases hmiss with h | h | h <;>
      simp [PermissionCache.get_user_permissions, get_cache, h,
        permComputeStore, set_cache]

/-- Witness for C2 as amended: a store holding a valid one-element entry for
user 3 is a hit, returned unchanged. -/
theorem C2_amended_witness :
    PermissionCache.get_user_permissions
        (some ⟨[(permKey 3, (.jlist ["read_user"], some 3600))], false, false, false⟩)
        3 .viewer
      = ({Permission.read_user},
         some ⟨[(permKey 3, (.jlist ["read_user"], some 3600))], false, false, false⟩) :=
  (C2_amended_cache_aside [(permKey 3, (.jlist ["read_user"], some 3600))] 3 .viewer
      ["read_user"] (some 3600) {Permission.read_user}).1
    (by decide) (by decide) (by decide)

/-- Claim C8: an update whose computed field-level diff is empty emits no
audit record at all (zero audit events in the trace), and a non-empty diff
emits the UPDATE record carrying exactly the supplied fields whose old and
new values differ; the diff is empty precisely when every supplied field's
old value equals its new value; the model-level event listener likewise
emits nothing for an empty change set. -/
theorem C8_noop_update_suppression (hashf : Option String → Option String)
    (u user_in : List (String × Option String)) (uid : Nat) (a k : String)
    (o n : Option String) :
    (changed_fields (old_data_of u user_in) (update_data_of hashf user_in) = [] →
      ∀ res, UserService.update hashf true (some u) uid user_in = .ok res →
        ∀ act ch, Event.auditLog act ch ∉ res.2)
    ∧ (changed_fields (old_data_of u user_in) (update_data_of hashf user_in) ≠ [] →
      ∀ res, UserService.update hashf true (some u) uid user_in = .ok res →
        Event.auditLog "UPDATE"
          (changed_fields (old_data_of u user_in) (update_data_of hashf user_in))
          ∈ res.2)
    ∧ ((k, o, n) ∈ changed_fields (old_data_of u user_in) (update_data_of hashf user_in)
        ↔ ((k, n) ∈ update_data_of hashf user_in
            ∧ o = pyget (old_data_of u user_in) k ∧ o ≠ n))
    ∧ (changed_fields (old_data_of u user_in) (update_data_of hashf user_in) = []
        ↔ ∀ kv ∈ update_data_of hashf user_in,
            pyget (old_data_of u user_in) kv.1 = kv.2)
    ∧ make_listener a [] = [] := by
  refine ⟨?_, ?_, ?_, ?_, rfl⟩
  · intro h res hres act ch
    simp only [UserService.update, h, List.isEmpty_nil, if_true] at hres
    injection hres with hres
    subst hres
    cases hb : (match dget (update_data_of hashf user_in) "role" with
      | some v => decide (v ≠ pyget u "role")
      | none => false) <;> simp [hb]
  · intro h res hres
    have hie : (changed_fields (old_data_of u user_in)
        (update_data_of hashf user_in)).isEmpty = false :=
      List.isEmpty_eq_false.mpr h
    simp only [UserService.update, hie, Bool.false_eq_true, if_false,
      log_action_async, if_true] at hres
    injection hres with hres
    subst hres
    simp
  · constructor
    · intro hmem
      rw [changed_fields, List.mem_filterMap] at hmem
      obtain ⟨⟨k1, n1⟩, hkv, hf⟩ := hmem
      dsimp only at hf
      split_ifs at hf with hc
      · simp only [Option.some.injEq, Prod.mk.injEq] at hf
        obtain ⟨h1, h2, h3⟩ := hf
        subst h1; subst h3
        exact ⟨hkv, h2.symm, h2 ▸ hc⟩
    · rintro ⟨hmem, ho, hne⟩
      rw [changed_fields, List.mem_filterMap]
      refine ⟨(k, n), hmem, ?_⟩
      dsimp only
      rw [if_pos (show pyget (old_data_of u user_in) k ≠ n from
        fun hx => hne (ho.trans hx)), ← ho]
  · rw [changed_fields, List.filterMap_eq_nil_iff]
    constructor
    · intro h kv hkv
      have := h kv hkv
      by_cases hc : pyget (old_data_of u user_in) kv.1 ≠ kv.2
      · rw [if_pos hc] at this; exact absurd this (by simp)
      · exact not_ne_iff.mp hc
    · intro h kv hkv
      rw [if_neg (not_ne_iff.mpr (h kv hkv))]

/-- Witness for C8: updating a user with an identical email value produces
an empty diff, and the resulting trace holds no audit event. -/
theorem C8_witness :
    Event.auditLog "UPDATE" [] ∉
      (some ([("role", some "viewer"), ("email", some "x")] :
          List (String × Option String)),
        [Event.commit, Event.refresh]).2 :=
  (C8_noop_update_suppression (fun x => x)
      [("role", some "viewer"), ("email", some "x")] [("email", some "x")]
      7 "CREATE" "k" none none).1
    (by decide)
    (some [("role", some "viewer"), ("email", some "x")],
      [Event.commit, Event.refresh])
    rfl "UPDATE" []

/-- Claim C1, counterexample: `UserService.delete` completes successfully on
an existing user (it commits, writes the DELETE audit record and attempts
the email) without ever invoking the permission-cache invalidation for the
deleted user. -/
theorem C1_counterexample_delete_no_invalidation :
    UserService.delete true (some [("role", some "viewer")]) 7
      = .ok (true, [Event.commit, Event.auditLog "DELETE" [], Event.email])
    ∧ Event.invalidate 7 ∉ [Event.commit, Event.auditLog "DELETE" [], Event.email] :=
  ⟨rfl, by decide⟩

/-- Claim C1 as amended: the permission-cache invalidation is invoked
synchronously, before the operation returns, on a role-changing
`UserService.update`, on a successful login, on every two-factor-status
change (enable, TOTP-verified enable, disable), and on self-service account
deletion via the account router — but `UserService.delete` (the service-layer
account deletion) returns without invoking it. -/
theorem C1_amended_invalidation_sites (hashf : Option String → Option String)
    (u user_in : List (String × Option String)) (uid : Nat) (v : Option String)
    (session_ok backup_ok is_admin : Bool) :
    (dget (update_data_of hashf user_in) "role" = some v → v ≠ pyget u "role" →
      ∃ r, UserService.update hashf true (some u) uid user_in = .ok r
        ∧ Event.invalidate uid ∈ r.2)
    ∧ (∃ evs, login_for_access_token true true true session_ok uid = .ok evs
        ∧ Event.invalidate uid ∈ evs)
    ∧ (∃ evs, enable_2fa false uid = .ok evs ∧ Event.invalidate uid ∈ evs)
    ∧ (∃ evs, verify_2fa true true backup_ok uid = .ok evs
        ∧ Event.invalidate uid ∈ evs)
    ∧ (∃ evs, disable_2fa true uid = .ok evs ∧ Event.invalidate uid ∈ evs)
    ∧ (∃ evs, delete_account true true is_admin false uid = .ok evs
        ∧ Event.invalidate uid ∈ evs)
    ∧ (∀ res, UserService.delete true (some u) uid = .ok res →
        Event.invalidate uid ∉ res.2) := by
  refine ⟨?_, ⟨_, rfl, by simp⟩, ⟨_, rfl, by simp⟩, ⟨_, rfl, by simp⟩,
    ⟨_, rfl, by simp⟩, ⟨[Event.commit, Event.invalidate uid],
      by simp [delete_account], by simp⟩, ?_⟩
  · intro hrole hne
    have hrc : decide (v ≠ pyget u "role") = true := decide_eq_true hne
    simp only [UserService.update, hrole, hrc, if_true]
    split
    · exact ⟨_, rfl, by simp⟩
    · simp only [log_action_async, if_true]
      exact ⟨_, rfl, by simp⟩
  · intro res h
    simp only [UserService.delete, log_action_async, if_true] at h
    injection h with h
    subst h
    simp

/-- Witness for C1 as amended: a role-changing update of a viewer to admin
performs the invalidation. -/
theorem C1_amended_witness :
    ∃ r, UserService.update (fun x => x) true
        (some [("role", some "viewer")]) 7 [("role", some "admin")] = .ok r
      ∧ Event.invalidate 7 ∈ r.2 :=
  (C1_amended_invalidation_sites (fun x => x) [("role", some "viewer")]
      [("role", some "admin")] 7 (some "admin") true true true).1
    (by decide) (by decide)

end UFM
